import Mathlib

/-!
Verification of the farmart backend core: a shallow embedding of
`app/models.py`, `app/auth/views.py`, `app/orders/routes.py` and
`app/wishlist/routes.py`, followed by theorems about the data-isolation,
registration-atomicity and error-handling behaviour of the handlers.

Modelling conventions:
* UUID primary keys are natural numbers below 2^128; `parseUUID` follows
  the string algorithm of Python's `uuid.UUID`.
* JSON numbers are exact rationals (the NUMERIC(10,2) columns are exact
  decimals); audit timestamps (`created_at` / `updated_at`) are outside
  the model, so `to_dict` bodies omit the `created_at` key.
* The committed database is a record of table contents plus the
  autoincrement counters; handlers return their HTTP response and (for
  mutating handlers) the new committed state.  Rollback paths return the
  input state unchanged.
* External collaborators (werkzeug password hashing, JWT issuance) are
  modelled by concrete stand-in functions; their internals are out of
  scope of the spec.
-/

namespace Farmart

/-- JSON values, as produced by `jsonify` bodies and consumed from
`request.get_json()` payloads. -/
inductive Json where
  | null : Json
  | jbool : Bool → Json
  | num : ℚ → Json
  | str : String → Json
  | arr : List Json → Json
  | obj : List (String × Json) → Json

/-- Key lookup in a JSON object payload, modelling Python dict access:
`none` models an absent key (`k not in data`), `some v` a present one. -/
def jlookup (d : List (String × Json)) (k : String) : Option Json :=
  (d.find? (fun kv => kv.1 == k)).map (fun kv => kv.2)

/-- A JSON value usable for an INTEGER column; anything else is rejected
by the database layer. -/
def Json.asNat : Json → Option Nat
  | Json.num q => if q.den == 1 && 0 ≤ q.num then some q.num.toNat else none
  | _ => none

/-- A JSON value usable for a string column. -/
def Json.asStr : Json → Option String
  | Json.str s => some s
  | _ => none

/-- A JSON value usable for a NUMERIC column. -/
def Json.asRat : Json → Option ℚ
  | Json.num q => some q
  | _ => none

/-- Left-to-right, non-overlapping substring replacement on character
lists (Python `str.replace`), with explicit fuel for structural
termination; the fuel is always instantiated with the input length. -/
def replaceAux (pat rep : List Char) : Nat → List Char → List Char
  | 0, s => s
  | _ + 1, [] => []
  | fuel + 1, c :: cs =>
    if (c :: cs).take pat.length == pat then
      rep ++ replaceAux pat rep fuel ((c :: cs).drop pat.length)
    else
      c :: replaceAux pat rep fuel cs

/-- Value of one hexadecimal digit character, `none` on a non-hex one. -/
def hexVal (c : Char) : Option Nat :=
  if 48 ≤ c.toNat ∧ c.toNat ≤ 57 then some (c.toNat - 48)
  else if 97 ≤ c.toNat ∧ c.toNat ≤ 102 then some (c.toNat - 87)
  else if 65 ≤ c.toNat ∧ c.toNat ≤ 70 then some (c.toNat - 55)
  else none

/-- Big-endian accumulation of hexadecimal digits. -/
def hexAcc : List Char → Nat → Option Nat
  | [], acc => some acc
  | c :: cs, acc =>
    match hexVal c with
    | none => none
    | some v => hexAcc cs (acc * 16 + v)

/-- Is the character one of the braces stripped by `uuid.UUID`? -/
def isBrace (c : Char) : Bool := c.toNat == 123 || c.toNat == 125

/-- Models Python `uuid.UUID(hex_string)` as called on the JWT subject by
every protected handler: remove the `urn:` and `uuid:` markers, strip
surrounding braces, drop hyphens, then require exactly 32 hexadecimal
digits.  (The whitespace/underscore tolerance of Python's `int(_, 16)`
is not modelled.) -/
def parseUUID (s : String) : Option Nat :=
  let l0 := s.toList
  let l1 := replaceAux "urn:".toList [] l0.length l0
  let l2 := replaceAux "uuid:".toList [] l1.length l1
  let l3 := ((l2.dropWhile isBrace).reverse.dropWhile isBrace).reverse
  let l4 := l3.filter (fun c => c.toNat != 45)
  if l4.length == 32 then hexAcc l4 0 else none

/-- Lowercase one ASCII character (Python `str.lower`, ASCII fragment). -/
def pyLowerChar (c : Char) : Char :=
  if 65 ≤ c.toNat ∧ c.toNat ≤ 90 then Char.ofNat (c.toNat + 32) else c

/-- Uppercase one ASCII character. -/
def pyUpperChar (c : Char) : Char :=
  if 97 ≤ c.toNat ∧ c.toNat ≤ 122 then Char.ofNat (c.toNat - 32) else c

/-- Python `str.lower` (ASCII fragment, enough for the role strings). -/
def pyLower (s : String) : String := String.mk (s.toList.map pyLowerChar)

/-- Python `str.capitalize`: first character uppercased, rest lowered. -/
def pyCapitalize (s : String) : String :=
  match s.toList with
  | [] => ""
  | c :: cs => String.mk (pyUpperChar c :: cs.map pyLowerChar)

/-- One hexadecimal digit character (lowercase). -/
def hexChar (n : Nat) : Char :=
  if n < 10 then Char.ofNat (48 + n) else Char.ofNat (87 + n)

/-- The 32 hexadecimal digits of a 128-bit number, most significant
first. -/
def natToHex32 (n : Nat) : List Char :=
  (List.range 32).map (fun i => hexChar (n / 16 ^ (31 - i) % 16))

/-- Canonical string form of a UUID (`str(user.id)`): 32 lowercase hex
digits grouped 8-4-4-4-12. -/
def uuidToString (n : Nat) : String :=
  let h := natToHex32 n
  String.mk (h.take 8) ++ "-" ++ String.mk ((h.drop 8).take 4) ++ "-" ++
    String.mk ((h.drop 12).take 4) ++ "-" ++ String.mk ((h.drop 16).take 4) ++
    "-" ++ String.mk (h.drop 20)

/-- Round a rational to the nearest integer, ties to even (Python's
`round`). -/
def roundHalfEven (q : ℚ) : ℤ :=
  let f := ⌊q⌋
  let r := q - f
  if r < 1/2 then f else if 1/2 < r then f + 1 else if 2 ∣ f then f else f + 1

/-- Python `round(x, 2)`. -/
def round2 (q : ℚ) : ℚ := (roundHalfEven (q * 100) : ℚ) / 100

/-- Models the external werkzeug collaborator `generate_password_hash`:
an injective stand-in recognised exactly by `check_password_hash`. -/
def generate_password_hash (p : String) : String := "pbkdf2:" ++ p

/-- Models the external `check_password_hash` collaborator: accepts
exactly the stored hash of the supplied password. -/
def check_password_hash (h : String) (p : String) : Bool :=
  h == generate_password_hash p

/-- Models the external JWT collaborator `create_access_token`. -/
def create_access_token (ident : String) (role : String) : String :=
  "jwt." ++ ident ++ "." ++ role

abbrev UserId := Nat

/-- Row of the `users` table (models.py `User`). -/
structure User where
  id : UserId
  email : String
  passwordHash : String
  role : String
  isActive : Bool
  fullName : Option String
  phoneNumber : Option String
  location : Option String
deriving DecidableEq

/-- Row of the `farmers` table (models.py `Farmer`). -/
structure Farmer where
  id : Nat
  userId : UserId
  farmName : String
  location : String
  phoneNumber : String
  isVerified : Bool
deriving DecidableEq

/-- Row of the `buyers` table (models.py `Buyer`). -/
structure Buyer where
  id : Nat
  userId : UserId
  deliveryAddress : Option String
  preferredContact : Option String
deriving DecidableEq

/-- Row of the `animals` table (models.py `Animal`). -/
structure Animal where
  id : Nat
  farmerId : Nat
  species : String
  breed : Option String
  age : Option Nat
  weight : Option ℚ
  price : ℚ
  status : String
  imageUrl : Option String
deriving DecidableEq

/-- Row of the `orders` table (models.py `Order`); `items` is the raw
JSON column. -/
structure Order where
  id : Nat
  buyerId : Nat
  items : Json
  totalAmount : ℚ
  status : String
  paymentMethod : String

/-- Row of the `wishlists` table (models.py `Wishlist`). -/
structure WishlistEntry where
  id : Nat
  userId : UserId
  animalId : Nat
deriving DecidableEq

/-- The declared column default of `Order.status` in models.py
(`db.Column(db.String(20), default="pending")`). -/
def orderStatusColumnDefault : String := "pending"

/-- Committed database state: one list per table (in insertion order)
plus the autoincrement counters of the integer primary keys. -/
structure DB where
  users : List User
  farmers : List Farmer
  buyers : List Buyer
  animals : List Animal
  orders : List Order
  wishlists : List WishlistEntry
  nextFarmerId : Nat
  nextBuyerId : Nat
  nextOrderId : Nat
  nextWishlistId : Nat

/-- Structural well-formedness: primary keys are unique per table. -/
def DB.wf (db : DB) : Prop :=
  (db.users.map User.id).Nodup ∧ (db.buyers.map Buyer.id).Nodup ∧
  (db.farmers.map Farmer.id).Nodup ∧ (db.orders.map Order.id).Nodup ∧
  (db.wishlists.map WishlistEntry.id).Nodup

instance (db : DB) : Decidable db.wf := by
  unfold DB.wf; infer_instance

/-- An HTTP response: status code and JSON body. -/
structure Response where
  status : Nat
  body : Json

/-- JSON of an optional string column (`null` when absent). -/
def optStr (o : Option String) : Json := o.elim Json.null Json.str

/-- JSON of an optional numeric column. -/
def optNum (o : Option ℚ) : Json := o.elim Json.null Json.num

/-- `{"error": m}` bodies. -/
def errBody (m : String) : Json := Json.obj [("error", Json.str m)]

/-- `{"message": m}` bodies. -/
def msgBody (m : String) : Json := Json.obj [("message", Json.str m)]

/-- The 400 response every protected handler gives to a malformed JWT
subject (`{"error": "Invalid user ID format"}`). -/
def invalidIdResp : Response := ⟨400, errBody "Invalid user ID format"⟩

/-- models.py `Animal.to_dict`. -/
def Animal.toDict (a : Animal) : Json :=
  Json.obj [("id", Json.str (toString a.id)),
    ("species", Json.str a.species),
    ("breed", optStr a.breed),
    ("age", a.age.elim Json.null (fun n => Json.num n)),
    ("weight", optNum a.weight),
    ("price", Json.num a.price),
    ("status", Json.str a.status),
    ("image_url", optStr a.imageUrl)]

/-- models.py `Order.to_dict` (without the unmodelled timestamp). -/
def Order.toDict (o : Order) : Json :=
  Json.obj [("id", Json.str (toString o.id)),
    ("buyer_id", Json.str (toString o.buyerId)),
    ("items", o.items),
    ("total_amount", Json.num o.totalAmount),
    ("status", Json.str o.status),
    ("payment_method", Json.str o.paymentMethod)]

/-- models.py `Wishlist.to_dict`, resolving the `animal` relationship
against the database. -/
def WishlistEntry.toDict (db : DB) (w : WishlistEntry) : Json :=
  Json.obj [("id", Json.str (toString w.id)),
    ("user_id", Json.str (uuidToString w.userId)),
    ("animal_id", Json.str (toString w.animalId)),
    ("animal",
      (db.animals.find? (fun a => a.id == w.animalId)).elim Json.null
        Animal.toDict)]

/-- The JSON body of POST /register, restricted to the string-valued keys
the handler reads; `none` models an absent key (explicit JSON nulls are
not distinguished from absent keys). -/
structure RegisterData where
  email : Option String
  password : Option String
  role : Option String
  full_name : Option String
  phone_number : Option String
  location : Option String
  farm_name : Option String
  delivery_address : Option String
  preferred_contact : Option String

/-- Python truthiness of `data.get(k)` for an optional string: `None`
and the empty string are falsy. -/
def truthy (o : Option String) : Bool := o.getD "" != ""

/-- POST /register (auth/views.py `register`).  `freshId` models the
random `uuid.uuid4()` primary key assigned at `db.session.flush()`;
`commitOk` models whether the final `db.session.commit()` succeeds (it
can fail on constraint races or driver errors, and its exception text is
modelled by a fixed string).  The committed database changes only at
that commit; every other exit performs a rollback and leaves it
untouched. -/
def register (d : RegisterData) (freshId : UserId) (commitOk : Bool)
    (db : DB) : Response × DB :=
  if ¬(d.email.isSome && d.password.isSome && d.role.isSome) then
    (⟨400, errBody "Missing email, password, or role"⟩, db)
  else
    let email := d.email.getD ""
    let password := d.password.getD ""
    let role := pyLower (d.role.getD "")
    if ¬(role == "farmer" || role == "buyer") then
      (⟨400, errBody "Invalid role. Must be \x27farmer\x27 or \x27buyer\x27"⟩,
       db)
    else if (db.users.find? (fun u => u.email == email)).isSome then
      (⟨409, errBody "Email already registered"⟩, db)
    else
      let newUser : User :=
        { id := freshId, email := email,
          passwordHash := generate_password_hash password, role := role,
          isActive := true, fullName := d.full_name,
          phoneNumber := d.phone_number, location := d.location }
      if role == "farmer" then
        if ¬(truthy d.farm_name && truthy d.location &&
             truthy d.phone_number) then
          (⟨400,
            errBody "Farmers require farm_name, location, and phone_number"⟩,
           db)
        else if (db.farmers.find?
            (fun f => f.phoneNumber == d.phone_number.getD "")).isSome then
          (⟨409, errBody "Phone number already registered"⟩, db)
        else
          let newFarmer : Farmer :=
            { id := db.nextFarmerId, userId := newUser.id,
              farmName := d.farm_name.getD "",
              location := d.location.getD "",
              phoneNumber := d.phone_number.getD "", isVerified := false }
          if commitOk then
            (⟨201, Json.obj
                [("message",
                  Json.str (pyCapitalize role ++ " registered successfully")),
                 ("user_id", Json.str (uuidToString newUser.id))]⟩,
             { db with users := db.users ++ [newUser],
                       farmers := db.farmers ++ [newFarmer],
                       nextFarmerId := db.nextFarmerId + 1 })
          else
            (⟨500, errBody "commit failed"⟩, db)
      else
        let newBuyer : Buyer :=
          { id := db.nextBuyerId, userId := newUser.id,
            deliveryAddress := d.delivery_address,
            preferredContact := d.preferred_contact }
        if commitOk then
          (⟨201, Json.obj
              [("message",
                Json.str (pyCapitalize role ++ " registered successfully")),
               ("user_id", Json.str (uuidToString newUser.id))]⟩,
           { db with users := db.users ++ [newUser],
                     buyers := db.buyers ++ [newBuyer],
                     nextBuyerId := db.nextBuyerId + 1 })
        else
          (⟨500, errBody "commit failed"⟩, db)

/-- The JSON body of POST /login. -/
structure LoginData where
  email : Option String
  password : Option String

/-- POST /login (auth/views.py `login`).  The unknown-email and the
wrong-password branches fall through to the same final return.  (A found
user together with an absent password crashes the hashing collaborator;
that surfaces as an unhandled 500.) -/
def login (d : LoginData) (db : DB) : Response :=
  match db.users.find? (fun u => some u.email == d.email) with
  | some u =>
    match d.password with
    | none => ⟨500, errBody "internal server error"⟩
    | some p =>
      if check_password_hash u.passwordHash p then
        ⟨200, Json.obj
          [("message", Json.str "Login successful"),
           ("access_token",
            Json.str (create_access_token (uuidToString u.id) u.role)),
           ("user", Json.obj
             [("id", Json.str (uuidToString u.id)),
              ("email", Json.str u.email),
              ("role", Json.str u.role),
              ("full_name", optStr u.fullName),
              ("phone_number", optStr u.phoneNumber),
              ("location", optStr u.location)])]⟩
      else ⟨401, errBody "Invalid credentials"⟩
  | none => ⟨401, errBody "Invalid credentials"⟩

/-- GET /me (auth/views.py `get_current_user`). Read-only. -/
def get_current_user (subj : String) (db : DB) : Response :=
  match parseUUID subj with
  | none => invalidIdResp
  | some uid =>
    match db.users.find? (fun u => u.id == uid) with
    | none => ⟨404, errBody "User not found"⟩
    | some u =>
      ⟨200, Json.obj
        [("id", Json.str (uuidToString u.id)),
         ("email", Json.str u.email),
         ("role", Json.str u.role),
         ("full_name", optStr u.fullName),
         ("phone_number", optStr u.phoneNumber),
         ("location", optStr u.location)]⟩

/-- GET /orders (orders/routes.py `get_my_orders`). Read-only; orders are
filtered by the caller's buyer id. -/
def get_my_orders (subj : String) (db : DB) : Response :=
  match parseUUID subj with
  | none => invalidIdResp
  | some uid =>
    match db.buyers.find? (fun b => b.userId == uid) with
    | none => ⟨404, msgBody "No buyer profile found for this user"⟩
    | some b =>
      ⟨200, Json.arr
        ((db.orders.filter (fun o => o.buyerId == b.id)).map Order.toDict)⟩

/-- POST /orders (orders/routes.py `create_order`).  `data` is the JSON
body as a key/value list.  Values the database layer would reject
(non-numeric total_amount, non-string status/payment_method) abort with
an unhandled 500 and no commit. -/
def create_order (subj : String) (data : List (String × Json)) (db : DB) :
    Response × DB :=
  match parseUUID subj with
  | none => (invalidIdResp, db)
  | some uid =>
    match db.buyers.find? (fun b => b.userId == uid) with
    | none => (⟨404, msgBody "No buyer profile found for this user"⟩, db)
    | some b =>
      if ¬((jlookup data "items").isSome &&
           (jlookup data "total_amount").isSome) then
        (⟨400, msgBody "Missing required fields: items, total_amount"⟩, db)
      else
        match (jlookup data "total_amount").bind Json.asRat,
              ((jlookup data "status").getD (Json.str "paid")).asStr,
              ((jlookup data "payment_method").getD
                (Json.str "mpesa")).asStr with
        | some amount, some st, some pm =>
          let o : Order :=
            { id := db.nextOrderId, buyerId := b.id,
              items := (jlookup data "items").getD Json.null,
              totalAmount := amount, status := st, paymentMethod := pm }
          (⟨201, Json.obj
              [("message", Json.str "Order created successfully"),
               ("order", o.toDict)]⟩,
           { db with orders := db.orders ++ [o],
                     nextOrderId := db.nextOrderId + 1 })
        | _, _, _ => (⟨500, errBody "internal server error"⟩, db)

/-- GET /orders/<order_id> (orders/routes.py `get_order`). Read-only; the
lookup filters on both the order id and the caller's buyer id in one
query. -/
def get_order (subj : String) (orderId : Nat) (db : DB) : Response :=
  match parseUUID subj with
  | none => invalidIdResp
  | some uid =>
    match db.buyers.find? (fun b => b.userId == uid) with
    | none => ⟨404, msgBody "No buyer profile found for this user"⟩
    | some b =>
      match db.orders.find?
          (fun o => o.id == orderId && o.buyerId == b.id) with
      | none => ⟨404, msgBody "Order not found or access denied"⟩
      | some o => ⟨200, o.toDict⟩

/-- GET /orders/stats (orders/routes.py `get_order_stats`). Read-only. -/
def get_order_stats (subj : String) (db : DB) : Response :=
  match parseUUID subj with
  | none => invalidIdResp
  | some uid =>
    match db.buyers.find? (fun b => b.userId == uid) with
    | none =>
      ⟨200, Json.obj [("total_orders", Json.num 0),
                      ("total_spent", Json.num 0)]⟩
    | some b =>
      let mine := db.orders.filter (fun o => o.buyerId == b.id)
      ⟨200, Json.obj
        [("total_orders", Json.num mine.length),
         ("total_spent",
          Json.num (round2 ((mine.map Order.totalAmount).sum)))]⟩

/-- GET /wishlist (wishlist/routes.py `get_my_wishlist`). Read-only;
entries are filtered by the caller's user id. -/
def get_my_wishlist (subj : String) (db : DB) : Response :=
  match parseUUID subj with
  | none => invalidIdResp
  | some uid =>
    ⟨200, Json.arr
      ((db.wishlists.filter (fun w => w.userId == uid)).map
        (WishlistEntry.toDict db))⟩

/-- POST /wishlist (wishlist/routes.py `add_to_wishlist`).  The duplicate
check precedes the insert; the guarded commit fails (500 with rollback)
when the animal foreign key does not exist.  Values the INTEGER
animal_id column would reject are collapsed into the same 500
outcome. -/
def add_to_wishlist (subj : String) (data : List (String × Json))
    (db : DB) : Response × DB :=
  match parseUUID subj with
  | none => (invalidIdResp, db)
  | some uid =>
    if ¬(jlookup data "animal_id").isSome then
      (⟨400, msgBody "Missing required field: animal_id"⟩, db)
    else
      match (jlookup data "animal_id").bind Json.asNat with
      | none =>
        (⟨500, Json.obj [("error", Json.str "Backend Crash"),
                         ("details", Json.str "database error")]⟩, db)
      | some aid =>
        if (db.wishlists.find?
            (fun w => w.userId == uid && w.animalId == aid)).isSome then
          (⟨200, msgBody "Item already in wishlist"⟩, db)
        else if db.animals.any (fun a => a.id == aid) then
          let w : WishlistEntry :=
            { id := db.nextWishlistId, userId := uid, animalId := aid }
          let db2 :=
            { db with wishlists := db.wishlists ++ [w],
                      nextWishlistId := db.nextWishlistId + 1 }
          (⟨201, Json.obj [("message", Json.str "Added to wishlist"),
                           ("item", WishlistEntry.toDict db2 w)]⟩, db2)
        else
          (⟨500, Json.obj [("error", Json.str "Backend Crash"),
                           ("details", Json.str "foreign key violation")]⟩,
           db)

/-- DELETE /wishlist/<item_id> (wishlist/routes.py
`remove_from_wishlist`).  One query filtered on both the item id and the
caller's user id; on a hit the row is deleted by primary key. -/
def remove_from_wishlist (subj : String) (itemId : Nat) (db : DB) :
    Response × DB :=
  match parseUUID subj with
  | none => (invalidIdResp, db)
  | some uid =>
    match db.wishlists.find?
        (fun w => w.id == itemId && w.userId == uid) with
    | none => (⟨404, msgBody "Wishlist item not found or access denied"⟩, db)
    | some item =>
      (⟨200, msgBody "Removed from wishlist"⟩,
       { db with wishlists :=
           db.wishlists.filter (fun w => w.id != item.id) })

/-- GET /wishlist/check/<animal_id> (wishlist/routes.py
`check_in_wishlist`). Read-only. -/
def check_in_wishlist (subj : String) (animalId : Nat) (db : DB) :
    Response :=
  match parseUUID subj with
  | none => invalidIdResp
  | some uid =>
    ⟨200, Json.obj
      [("in_wishlist", Json.jbool ((db.wishlists.find?
        (fun w => w.userId == uid && w.animalId == animalId)).isSome))]⟩

/-- GET /wishlist/count (wishlist/routes.py `get_wishlist_count`).
Read-only. -/
def get_wishlist_count (subj : String) (db : DB) : Response :=
  match parseUUID subj with
  | none => invalidIdResp
  | some uid =>
    ⟨200, Json.obj
      [("count",
        Json.num ((db.wishlists.filter (fun w => w.userId == uid)).length))]⟩

/-- Stored wishlist size for one user (the `/wishlist/count` query). -/
def wishCount (uid : UserId) (db : DB) : Nat :=
  (db.wishlists.filter (fun w => w.userId == uid)).length

/-- `n` successive POST /wishlist calls with the same token and body. -/
def addNTimes (subj : String) (data : List (String × Json)) :
    Nat → DB → DB
  | 0, db => db
  | n + 1, db => (add_to_wishlist subj data (addNTimes subj data n db)).2

/-! ### Concrete fixtures used by the witness theorems -/

/-- Registered buyer, user id 1. -/
def userA : User :=
  ⟨1, "a@x.com", generate_password_hash "pw123456", "buyer", true,
   none, none, none⟩

/-- Registered buyer, user id 2. -/
def userB : User :=
  ⟨2, "b@x.com", generate_password_hash "pw2pw2", "buyer", true,
   none, none, none⟩

/-- Registered user without any role profile, user id 3. -/
def userC : User :=
  ⟨3, "c@x.com", generate_password_hash "pw3pw3", "buyer", true,
   none, none, none⟩

/-- Buyer profile of `userA`. -/
def buyerA : Buyer := ⟨10, 1, none, none⟩

/-- Buyer profile of `userB`. -/
def buyerB : Buyer := ⟨20, 2, none, none⟩

/-- One listed animal. -/
def animal5 : Animal :=
  ⟨5, 1, "Cow", none, none, none, 185000, "available", none⟩

/-- An order owned by `buyerB`. -/
def orderB : Order := ⟨100, 20, Json.arr [], 185000, "paid", "mpesa"⟩

/-- A wishlist entry owned by `userB`. -/
def wishB : WishlistEntry := ⟨200, 2, 5⟩

/-- A small committed state with two buyers, a third profile-less user,
one order and one wishlist entry, both owned by user 2. -/
def dbAB : DB :=
  ⟨[userA, userB, userC], [], [buyerA, buyerB], [animal5], [orderB],
   [wishB], 1, 21, 101, 201⟩

/-- JWT subject string of user 1. -/
def subjA : String := "00000000-0000-0000-0000-000000000001"

/-- JWT subject string of user 2. -/
def subjB : String := "00000000-0000-0000-0000-000000000002"

/-- JWT subject string of user 3. -/
def subjC : String := "00000000-0000-0000-0000-000000000003"

/-- A valid POST /orders body without a status field. -/
def orderData : List (String × Json) :=
  [("items", Json.arr []), ("total_amount", Json.num 185000)]

/-- A POST /orders body carrying a status outside the documented set. -/
def orderDataBogus : List (String × Json) :=
  [("items", Json.arr []), ("total_amount", Json.num 185000),
   ("status", Json.str "bogus")]

/-- A POST /wishlist body for animal 5. -/
def wishData : List (String × Json) :=
  [("animal_id", Json.num (5 : Nat))]

/-- A farmer registration body with the phone number missing. -/
def regFarmerBad : RegisterData :=
  ⟨some "f@x.com", some "pw", some "farmer", none, none, some "Nairobi",
   some "Green Farm", none, none⟩

/-- A registration body reusing `userA`'s email. -/
def regDupEmail : RegisterData :=
  ⟨some "a@x.com", some "pw", some "buyer", none, none, none, none,
   none, none⟩

/-! ### Helper lemmas -/

/-- Prepending a pair under a different key leaves a dict lookup
unchanged. -/
lemma jlookup_cons_ne (k2 k : String) (v : Json)
    (data : List (String × Json)) (h : (k2 == k) = false) :
    jlookup ((k2, v) :: data) k = jlookup data k := by
  unfold jlookup
  rw [List.find?_cons_of_neg _ (by simp [h])]

/-- An integer-valued JSON number passes the INTEGER column check. -/
lemma Json.asNat_natCast (n : Nat) :
    Json.asNat (Json.num (n : ℚ)) = some n := by
  simp [Json.asNat]

/-! ### Claim theorems -/

/-- C9: for every protected endpoint and every bearer subject string that
is not a well-formed UUID, the request is rejected with the 400
MalformedIdentity client error (distinct from a 401 authentication
failure), the database is left untouched, and the response is the same
for every database state — so the rejection happens before any database
access. -/
theorem c9_malformed_identity_rejected (subj : String)
    (h : parseUUID subj = none) :
    ∀ (db : DB) (data : List (String × Json)) (oid aid wid : Nat),
      get_my_orders subj db = invalidIdResp ∧
      create_order subj data db = (invalidIdResp, db) ∧
      get_order subj oid db = invalidIdResp ∧
      get_order_stats subj db = invalidIdResp ∧
      get_my_wishlist subj db = invalidIdResp ∧
      add_to_wishlist subj data db = (invalidIdResp, db) ∧
      remove_from_wishlist subj wid db = (invalidIdResp, db) ∧
      check_in_wishlist subj aid db = invalidIdResp ∧
      get_wishlist_count subj db = invalidIdResp ∧
      get_current_user subj db = invalidIdResp ∧
      invalidIdResp.status = 400 := by
  intro db data oid aid wid
  refine ⟨?_, ?_, ?_, ?_, ?_, ?_, ?_, ?_, ?_, ?_, rfl⟩ <;>
    simp [get_my_orders, create_order, get_order, get_order_stats,
      get_my_wishlist, add_to_wishlist, remove_from_wishlist,
      check_in_wishlist, get_wishlist_count, get_current_user, h]

/-- Witness for C9 at the concrete malformed subject "not-a-uuid". -/
theorem c9_witness :
    get_my_orders "not-a-uuid" dbAB = invalidIdResp ∧
    add_to_wishlist "not-a-uuid" wishData dbAB = (invalidIdResp, dbAB) := by
  have h :=
    c9_malformed_identity_rejected "not-a-uuid" (by decide) dbAB wishData 0 0 0
  exact ⟨h.1, h.2.2.2.2.2.1⟩

/-- C4: login with an unknown email and login with an existing email but
a wrong password produce the identical generic InvalidCredentials
response: same 401 status, same body. -/
theorem c4_login_generic_failure (db : DB) (d1 d2 : LoginData)
    (u : User) (p2 : String)
    (h1 : db.users.find? (fun x => some x.email == d1.email) = none)
    (h2 : db.users.find? (fun x => some x.email == d2.email) = some u)
    (hp : d2.password = some p2)
    (hw : check_password_hash u.passwordHash p2 = false) :
    login d1 db = login d2 db ∧
    login d1 db = ⟨401, errBody "Invalid credentials"⟩ := by
  constructor <;> simp [login, h1, h2, hp, hw]

/-- Witness for C4: unknown email vs `userA` with a wrong password. -/
theorem c4_witness :
    login ⟨some "ghost@x.com", some "whatever"⟩ dbAB =
      login ⟨some "a@x.com", some "wrongpw"⟩ dbAB ∧
    login ⟨some "ghost@x.com", some "whatever"⟩ dbAB =
      ⟨401, errBody "Invalid credentials"⟩ :=
  c4_login_generic_failure dbAB ⟨some "ghost@x.com", some "whatever"⟩
    ⟨some "a@x.com", some "wrongpw"⟩ userA "wrongpw" rfl rfl rfl rfl

/-- C6: order stats return the zero-valued 200 aggregate (not an error)
when the caller has no Buyer profile, and otherwise the count of the
caller's own orders and the 2-decimal rounding of the sum of their
total_amount values, computed only over orders whose buyer_id is the
caller's Buyer profile id. -/
theorem c6_order_stats_aggregate (subj : String) (uid : UserId) (db : DB)
    (hp : parseUUID subj = some uid) :
    (db.buyers.find? (fun b => b.userId == uid) = none →
      get_order_stats subj db =
        ⟨200, Json.obj [("total_orders", Json.num 0),
                        ("total_spent", Json.num 0)]⟩) ∧
    (∀ b : Buyer, db.buyers.find? (fun x => x.userId == uid) = some b →
      get_order_stats subj db =
        ⟨200, Json.obj
          [("total_orders",
            Json.num
              ((db.orders.filter (fun o => o.buyerId == b.id)).length)),
           ("total_spent",
            Json.num (round2 (((db.orders.filter
              (fun o => o.buyerId == b.id)).map Order.totalAmount).sum)))]⟩) := by
  constructor
  · intro h
    simp [get_order_stats, hp, h]
  · intro b h
    simp [get_order_stats, hp, h]

/-- Witness for C6: user 3 has no Buyer profile and gets the zero
aggregate; user 2 gets the aggregate over their single order. -/
theorem c6_witness :
    get_order_stats subjC dbAB =
      ⟨200, Json.obj [("total_orders", Json.num 0),
                      ("total_spent", Json.num 0)]⟩ ∧
    get_order_stats subjB dbAB =
      ⟨200, Json.obj
        [("total_orders",
          Json.num ((dbAB.orders.filter (fun o => o.buyerId == buyerB.id)).length)),
         ("total_spent",
          Json.num (round2 (((dbAB.orders.filter
            (fun o => o.buyerId == buyerB.id)).map Order.totalAmount).sum)))]⟩ :=
  ⟨(c6_order_stats_aggregate subjC 3 dbAB rfl).1 rfl,
   (c6_order_stats_aggregate subjB 2 dbAB rfl).2 buyerB rfl⟩

/-- C7: registering with an email that already belongs to a User fails
with 409 Conflict and leaves every table unchanged; the outcome is
decided before any row creation or commit, so it does not depend on the
generated user id or on commit success. -/
theorem c7_register_email_conflict (d : RegisterData) (fId : UserId)
    (cOk : Bool) (db : DB)
    (he : d.email.isSome = true) (hpw : d.password.isSome = true)
    (hr : d.role.isSome = true)
    (hrv : (pyLower (d.role.getD "") == "farmer" ||
            pyLower (d.role.getD "") == "buyer") = true)
    (hu : (db.users.find?
      (fun x => x.email == d.email.getD "")).isSome = true) :
    register d fId cOk db =
      (⟨409, errBody "Email already registered"⟩, db) ∧
    ∀ (fId2 : UserId) (cOk2 : Bool),
      register d fId2 cOk2 db = register d fId cOk db := by
  have hmain : ∀ (f : UserId) (c : Bool),
      register d f c db = (⟨409, errBody "Email already registered"⟩, db) := by
    intro f c
    simp [register, he, hpw, hr, hrv, hu]
  exact ⟨hmain fId cOk,
    fun f2 c2 => (hmain f2 c2).trans (hmain fId cOk).symm⟩

/-- Witness for C7: re-registering `userA`'s email on `dbAB`. -/
theorem c7_witness :
    register regDupEmail 7 true dbAB =
      (⟨409, errBody "Email already registered"⟩, dbAB) :=
  (c7_register_email_conflict regDupEmail 7 true dbAB rfl rfl rfl
    (by decide) rfl).1

/-- C8 counterexample: on `dbAB`, user 3 has a valid identity but no
Buyer profile, and GET /orders answers 404 with an error message, not a
200 empty result set — refuting the claim that the read endpoint treats
a missing profile as an empty success. -/
theorem c8_counterexample :
    get_my_orders subjC dbAB =
      ⟨404, msgBody "No buyer profile found for this user"⟩ ∧
    (get_my_orders subjC dbAB).status ≠ 200 := by
  constructor
  · rfl
  · decide

/-- C8 (amended): a caller with a valid identity and no Buyer profile
receives the same hard 404 from the read endpoint GET /orders as from
the write endpoint POST /orders; only GET /orders/stats treats the
missing profile as an empty result set (zero-valued 200). -/
theorem c8_missing_profile_is_hard_404 (subj : String) (uid : UserId)
    (db : DB) (hp : parseUUID subj = some uid)
    (hb : db.buyers.find? (fun b => b.userId == uid) = none) :
    get_my_orders subj db =
      ⟨404, msgBody "No buyer profile found for this user"⟩ ∧
    (∀ data, create_order subj data db =
      (⟨404, msgBody "No buyer profile found for this user"⟩, db)) ∧
    get_order_stats subj db =
      ⟨200, Json.obj [("total_orders", Json.num 0),
                      ("total_spent", Json.num 0)]⟩ := by
  refine ⟨?_, fun data => ?_, ?_⟩ <;>
    simp [get_my_orders, create_order, get_order_stats, hp, hb]

/-- Witness for the amended C8 at user 3 on `dbAB`. -/
theorem c8_witness :
    get_my_orders subjC dbAB =
      ⟨404, msgBody "No buyer profile found for this user"⟩ ∧
    create_order subjC orderData dbAB =
      (⟨404, msgBody "No buyer profile found for this user"⟩, dbAB) := by
  have h := c8_missing_profile_is_hard_404 subjC 3 dbAB rfl rfl
  exact ⟨h.1, h.2.1 orderData⟩

/-- Outcome analysis of POST /orders: either the request fails with a
non-201 status and the database is unchanged, or it succeeds with 201
appending exactly one order stamped with the resolved buyer's id. -/
lemma create_order_cases (subj : String) (data : List (String × Json))
    (db : DB) :
    ((create_order subj data db).1.status ≠ 201 ∧
     (create_order subj data db).2 = db) ∨
    (∃ (uid : UserId) (b : Buyer),
      parseUUID subj = some uid ∧
      db.buyers.find? (fun x => x.userId == uid) = some b ∧
      (create_order subj data db).1.status = 201 ∧
      ∃ o : Order, o.buyerId = b.id ∧
        (create_order subj data db).2.orders = db.orders ++ [o]) := by
  cases hparse : parseUUID subj with
  | none =>
    exact Or.inl (by simp [create_order, hparse, invalidIdResp])
  | some uid =>
    cases hfind : db.buyers.find? (fun x => x.userId == uid) with
    | none => exact Or.inl (by simp [create_order, hparse, hfind])
    | some b =>
      by_cases hreq : ((jlookup data "items").isSome &&
          (jlookup data "total_amount").isSome) = true
      · cases hA : (jlookup data "total_amount").bind Json.asRat with
        | none =>
          exact Or.inl (by simp [create_order, hparse, hfind, hreq, hA])
        | some amount =>
          cases hS : ((jlookup data "status").getD (Json.str "paid")).asStr with
          | none =>
            exact Or.inl (by simp [create_order, hparse, hfind, hreq, hA, hS])
          | some st =>
            cases hP : ((jlookup data "payment_method").getD
                (Json.str "mpesa")).asStr with
            | none =>
              exact Or.inl
                (by simp [create_order, hparse, hfind, hreq, hA, hS, hP])
            | some pm =>
              refine Or.inr ⟨uid, b, rfl, hfind, ?_,
                ⟨{ id := db.nextOrderId, buyerId := b.id,
                   items := (jlookup data "items").getD Json.null,
                   totalAmount := amount, status := st,
                   paymentMethod := pm }, rfl, ?_⟩⟩ <;>
                simp [create_order, hparse, hfind, hreq, hA, hS, hP]
      · exact Or.inl (by simp [create_order, hparse, hfind, hreq])

/-- C3: whenever POST /orders succeeds with 201, the stored order's
buyer_id is the id of the Buyer profile resolved from the caller's
token (which resolves back to the caller's user id), and any owner id
supplied in the client payload is ignored. -/
theorem c3_create_order_stamps_buyer (subj : String)
    (data : List (String × Json)) (db : DB) :
    ((create_order subj data db).1.status = 201 →
      ∃ (uid : UserId) (b : Buyer) (o : Order),
        parseUUID subj = some uid ∧
        db.buyers.find? (fun x => x.userId == uid) = some b ∧
        b.userId = uid ∧
        (create_order subj data db).2.orders = db.orders ++ [o] ∧
        o.buyerId = b.id) ∧
    (∀ v : Json,
      create_order subj (("buyer_id", v) :: data) db =
        create_order subj data db) := by
  constructor
  · intro hst
    rcases create_order_cases subj data db with h | h
    · exact absurd hst h.1
    · obtain ⟨uid, b, hparse, hfind, _, o, hob, happ⟩ := h
      have hbu : b.userId = uid := by simpa using List.find?_some hfind
      exact ⟨uid, b, o, hparse, hfind, hbu, happ, hob⟩
  · intro v
    have h1 : jlookup (("buyer_id", v) :: data) "items" =
        jlookup data "items" := jlookup_cons_ne _ _ _ _ (by decide)
    have h2 : jlookup (("buyer_id", v) :: data) "total_amount" =
        jlookup data "total_amount" := jlookup_cons_ne _ _ _ _ (by decide)
    have h3 : jlookup (("buyer_id", v) :: data) "status" =
        jlookup data "status" := jlookup_cons_ne _ _ _ _ (by decide)
    have h4 : jlookup (("buyer_id", v) :: data) "payment_method" =
        jlookup data "payment_method" := jlookup_cons_ne _ _ _ _ (by decide)
    simp only [create_order, h1, h2, h3, h4]

/-- Witness for C3: user 2 creating an order on `dbAB`, with a payload
that also carries a forged buyer_id. -/
theorem c3_witness :
    (∃ (uid : UserId) (b : Buyer) (o : Order),
      parseUUID subjB = some uid ∧
      dbAB.buyers.find? (fun x => x.userId == uid) = some b ∧
      b.userId = uid ∧
      (create_order subjB orderData dbAB).2.orders = dbAB.orders ++ [o] ∧
      o.buyerId = b.id) ∧
    create_order subjB (("buyer_id", Json.num (77 : Nat)) :: orderData) dbAB =
      create_order subjB orderData dbAB :=
  ⟨(c3_create_order_stamps_buyer subjB orderData dbAB).1 rfl,
   (c3_create_order_stamps_buyer subjB orderData dbAB).2
     (Json.num (77 : Nat))⟩

/-- C10: a POST /orders payload without a status yields an order stored
and returned with status "paid" — not the Order model's declared column
default "pending" — and a payload with any status string s yields an
order with status s, with no validation against the documented set. -/
theorem c10_order_status_paid_not_default (subj : String) (uid : UserId)
    (b : Buyer) (data : List (String × Json)) (db : DB) (q : ℚ)
    (items : Json) (pm : String)
    (hp : parseUUID subj = some uid)
    (hb : db.buyers.find? (fun x => x.userId == uid) = some b)
    (hi : jlookup data "items" = some items)
    (ht : jlookup data "total_amount" = some (Json.num q))
    (hpm : ((jlookup data "payment_method").getD
      (Json.str "mpesa")).asStr = some pm) :
    (jlookup data "status" = none →
      ∃ o : Order,
        create_order subj data db =
          (⟨201, Json.obj
             [("message", Json.str "Order created successfully"),
              ("order", o.toDict)]⟩,
           { db with orders := db.orders ++ [o],
                     nextOrderId := db.nextOrderId + 1 }) ∧
        o.status = "paid" ∧ o.status ≠ orderStatusColumnDefault) ∧
    (∀ s : String, jlookup data "status" = some (Json.str s) →
      ∃ o : Order,
        create_order subj data db =
          (⟨201, Json.obj
             [("message", Json.str "Order created successfully"),
              ("order", o.toDict)]⟩,
           { db with orders := db.orders ++ [o],
                     nextOrderId := db.nextOrderId + 1 }) ∧
        o.status = s) := by
  constructor
  · intro hs
    refine ⟨{ id := db.nextOrderId, buyerId := b.id, items := items,
              totalAmount := q, status := "paid", paymentMethod := pm },
            ?_, rfl, by simp [orderStatusColumnDefault]⟩
    simp only [create_order, hp, hb, hi, ht, hs, hpm]
    simp [Json.asRat, Json.asStr]
  · intro s hs
    refine ⟨{ id := db.nextOrderId, buyerId := b.id, items := items,
              totalAmount := q, status := s, paymentMethod := pm },
            ?_, rfl⟩
    simp only [create_order, hp, hb, hi, ht, hs, hpm]
    simp [Json.asRat, Json.asStr]

/-- Witness for C10: the same valid payload with and without a status on
`dbAB`, the supplied status being outside {pending, paid, completed}. -/
theorem c10_witness :
    (∃ o : Order,
      create_order subjB orderData dbAB =
        (⟨201, Json.obj
           [("message", Json.str "Order created successfully"),
            ("order", o.toDict)]⟩,
         { dbAB with orders := dbAB.orders ++ [o],
                     nextOrderId := dbAB.nextOrderId + 1 }) ∧
      o.status = "paid" ∧ o.status ≠ orderStatusColumnDefault) ∧
    (∃ o : Order,
      create_order subjB orderDataBogus dbAB =
        (⟨201, Json.obj
           [("message", Json.str "Order created successfully"),
            ("order", o.toDict)]⟩,
         { dbAB with orders := dbAB.orders ++ [o],
                     nextOrderId := dbAB.nextOrderId + 1 }) ∧
      o.status = "bogus") :=
  ⟨(c10_order_status_paid_not_default subjB 2 buyerB orderData dbAB
      185000 (Json.arr []) "mpesa" rfl rfl rfl rfl rfl).1 rfl,
   (c10_order_status_paid_not_default subjB 2 buyerB orderDataBogus dbAB
      185000 (Json.arr []) "mpesa" rfl rfl rfl rfl rfl).2 "bogus" rfl⟩

/-- C1: in a well-formed database, a caller authenticated as user A who
supplies the id of an order or wishlist entry owned by a different user
B obtains exactly the same 404 outcome as for an id matching no row at
all: GET /orders/{id} answers identically (because the single lookup
filters on both the id and A's buyer id), and DELETE /wishlist/{id}
answers identically and deletes nothing. -/
theorem c1_cross_user_isolation (db : DB) (subj : String)
    (uidA uidB : UserId) (o : Order) (bB : Buyer) (w : WishlistEntry)
    (oidNone widNone : Nat)
    (hwf : db.wf) (hp : parseUUID subj = some uidA) (hAB : uidA ≠ uidB)
    (ho : o ∈ db.orders) (hbB : bB ∈ db.buyers) (hob : o.buyerId = bB.id)
    (hbu : bB.userId = uidB)
    (hoN : ∀ o2 ∈ db.orders, o2.id ≠ oidNone)
    (hw : w ∈ db.wishlists) (hwu : w.userId = uidB)
    (hwN : ∀ w2 ∈ db.wishlists, w2.id ≠ widNone) :
    (get_order subj o.id db = get_order subj oidNone db ∧
     (get_order subj o.id db).status = 404) ∧
    (remove_from_wishlist subj w.id db =
       remove_from_wishlist subj widNone db ∧
     (remove_from_wishlist subj w.id db).1.status = 404 ∧
     (remove_from_wishlist subj w.id db).2 = db) := by
  obtain ⟨hwfu, hwfb, hwff, hwfo, hwfw⟩ := hwf
  constructor
  · cases hfA : db.buyers.find? (fun x => x.userId == uidA) with
    | none => constructor <;> simp [get_order, hp, hfA]
    | some bA =>
      have hbAmem : bA ∈ db.buyers := List.mem_of_find?_eq_some hfA
      have hbAuid : bA.userId = uidA := by
        simpa using List.find?_some hfA
      have hbne : bA.id ≠ bB.id := by
        intro hid
        have heq : bA = bB := List.inj_on_of_nodup_map hwfb hbAmem hbB hid
        rw [heq, hbu] at hbAuid
        exact hAB hbAuid.symm
      have hnone1 : db.orders.find?
          (fun o2 => o2.id == o.id && o2.buyerId == bA.id) = none := by
        rw [List.find?_eq_none]
        intro o2 ho2 hc
        simp only [Bool.and_eq_true, beq_iff_eq] at hc
        have heq : o2 = o := List.inj_on_of_nodup_map hwfo ho2 ho hc.1
        have : bB.id = bA.id := by rw [← hob, ← heq]; exact hc.2
        exact hbne this.symm
      have hnone2 : db.orders.find?
          (fun o2 => o2.id == oidNone && o2.buyerId == bA.id) = none := by
        rw [List.find?_eq_none]
        intro o2 ho2 hc
        simp only [Bool.and_eq_true, beq_iff_eq] at hc
        exact hoN o2 ho2 hc.1
      constructor <;> simp [get_order, hp, hfA, hnone1, hnone2]
  · have hnone1 : db.wishlists.find?
        (fun w2 => w2.id == w.id && w2.userId == uidA) = none := by
      rw [List.find?_eq_none]
      intro w2 hw2 hc
      simp only [Bool.and_eq_true, beq_iff_eq] at hc
      have heq : w2 = w := List.inj_on_of_nodup_map hwfw hw2 hw hc.1
      rw [heq, hwu] at hc
      exact hAB hc.2.symm
    have hnone2 : db.wishlists.find?
        (fun w2 => w2.id == widNone && w2.userId == uidA) = none := by
      rw [List.find?_eq_none]
      intro w2 hw2 hc
      simp only [Bool.and_eq_true, beq_iff_eq] at hc
      exact hwN w2 hw2 hc.1
    refine ⟨?_, ?_, ?_⟩ <;>
      simp [remove_from_wishlist, hp, hnone1, hnone2]

/-- Witness for C1 on `dbAB`: user 1 probing user 2's order (id 100) and
wishlist entry (id 200), against the nonexistent id 999. -/
theorem c1_witness :
    (get_order subjA orderB.id dbAB = get_order subjA 999 dbAB ∧
     (get_order subjA orderB.id dbAB).status = 404) ∧
    (remove_from_wishlist subjA wishB.id dbAB =
       remove_from_wishlist subjA 999 dbAB ∧
     (remove_from_wishlist subjA wishB.id dbAB).1.status = 404 ∧
     (remove_from_wishlist subjA wishB.id dbAB).2 = dbAB) :=
  c1_cross_user_isolation dbAB subjA 1 2 orderB buyerB wishB 999 999
    (by decide) rfl (by decide)
    (List.Mem.head _) (by simp [dbAB, buyerA, buyerB]) rfl rfl
    (by intro o2 h2; simp [dbAB] at h2; rw [h2]; decide)
    (List.Mem.head _) rfl
    (by intro w2 h2; simp [dbAB] at h2; rw [h2]; decide)

/-- Outcome analysis of POST /register: either the request fails with a
non-201 status and the committed database is unchanged (full rollback),
or it succeeds with 201, the commit went through, and exactly one User
row together with exactly one matching profile row (Farmer or Buyer,
never both, never neither) were appended. -/
lemma register_cases (d : RegisterData) (fId : UserId) (cOk : Bool)
    (db : DB) :
    ((register d fId cOk db).1.status ≠ 201 ∧
     (register d fId cOk db).2 = db) ∨
    ((register d fId cOk db).1.status = 201 ∧ cOk = true ∧
     ∃ u : User, u.id = fId ∧
       (register d fId cOk db).2.users = db.users ++ [u] ∧
       ((∃ f : Farmer, f.userId = u.id ∧
          (register d fId cOk db).2.farmers = db.farmers ++ [f] ∧
          (register d fId cOk db).2.buyers = db.buyers) ∨
        (∃ bu : Buyer, bu.userId = u.id ∧
          (register d fId cOk db).2.buyers = db.buyers ++ [bu] ∧
          (register d fId cOk db).2.farmers = db.farmers))) := by
  by_cases h1 : (d.email.isSome && d.password.isSome && d.role.isSome) = true
  · by_cases h2 : (pyLower (d.role.getD "") == "farmer" ||
        pyLower (d.role.getD "") == "buyer") = true
    · by_cases h3 : (db.users.find?
          (fun u => u.email == d.email.getD "")).isSome = true
      · left
        constructor <;> simp [register, h1, h2, h3]
      · by_cases h4 : (pyLower (d.role.getD "") == "farmer") = true
        · by_cases h5 : (truthy d.farm_name && truthy d.location &&
              truthy d.phone_number) = true
          · by_cases h6 : (db.farmers.find? (fun f =>
                f.phoneNumber == d.phone_number.getD "")).isSome = true
            · left
              constructor <;> simp [register, h1, h2, h3, h4, h5, h6]
            · cases cOk with
              | false =>
                left
                constructor <;> simp [register, h1, h2, h3, h4, h5, h6]
              | true =>
                right
                refine ⟨by simp [register, h1, h2, h3, h4, h5, h6], rfl,
                  ⟨{ id := fId, email := d.email.getD "",
                     passwordHash := generate_password_hash (d.password.getD ""),
                     role := pyLower (d.role.getD ""), isActive := true,
                     fullName := d.full_name,
                     phoneNumber := d.phone_number,
                     location := d.location }, rfl,
                   by simp [register, h1, h2, h3, h4, h5, h6],
                   Or.inl ⟨{ id := db.nextFarmerId, userId := fId,
                             farmName := d.farm_name.getD "",
                             location := d.location.getD "",
                             phoneNumber := d.phone_number.getD "",
                             isVerified := false }, rfl,
                     by simp [register, h1, h2, h3, h4, h5, h6],
                     by simp [register, h1, h2, h3, h4, h5, h6]⟩⟩⟩
          · left
            constructor <;> simp [register, h1, h2, h3, h4, h5]
        · have hb : (pyLower (d.role.getD "") == "buyer") = true := by
            have h2e : pyLower (d.role.getD "") = "farmer" ∨
                pyLower (d.role.getD "") = "buyer" := by simpa using h2
            rcases h2e with hf | hb2
            · exact absurd (by simp [hf]) h4
            · simp [hb2]
          cases cOk with
          | false =>
            left
            constructor <;> simp [register, h1, h2, h3, h4, hb]
          | true =>
            right
            refine ⟨by simp [register, h1, h2, h3, h4, hb], rfl,
              ⟨{ id := fId, email := d.email.getD "",
                 passwordHash := generate_password_hash (d.password.getD ""),
                 role := pyLower (d.role.getD ""), isActive := true,
                 fullName := d.full_name,
                 phoneNumber := d.phone_number,
                 location := d.location }, rfl,
               by simp [register, h1, h2, h3, h4, hb],
               Or.inr ⟨{ id := db.nextBuyerId, userId := fId,
                         deliveryAddress := d.delivery_address,
                         preferredContact := d.preferred_contact }, rfl,
                 by simp [register, h1, h2, h3, h4, hb],
                 by simp [register, h1, h2, h3, h4, hb]⟩⟩⟩
    · left
      constructor <;> simp [register, h1, h2]
  · left
    constructor <;> simp [register, h1]

/-- C2: registration is atomic.  A farmer registration with any of
farm_name, location, phone_number missing (or empty) fails with the 400
client error and the committed state is unchanged; every non-201
outcome leaves the committed state unchanged (full rollback), a failing
final commit never yields 201 and also rolls back, and a 201 outcome
commits exactly one User with exactly one matching role profile — so no
User-without-profile or profile-without-User is ever observable. -/
theorem c2_registration_atomic (d : RegisterData) (fId : UserId)
    (cOk : Bool) (db : DB) :
    ((d.email.isSome && d.password.isSome && d.role.isSome) = true →
     pyLower (d.role.getD "") = "farmer" →
     db.users.find? (fun u => u.email == d.email.getD "") = none →
     (truthy d.farm_name && truthy d.location &&
      truthy d.phone_number) = false →
     register d fId cOk db =
       (⟨400,
         errBody "Farmers require farm_name, location, and phone_number"⟩,
        db)) ∧
    ((register d fId cOk db).1.status ≠ 201 →
      (register d fId cOk db).2 = db) ∧
    (cOk = false → (register d fId cOk db).1.status ≠ 201 ∧
      (register d fId cOk db).2 = db) ∧
    ((register d fId cOk db).1.status = 201 →
      ∃ u : User, u.id = fId ∧
        (register d fId cOk db).2.users = db.users ++ [u] ∧
        ((∃ f : Farmer, f.userId = u.id ∧
           (register d fId cOk db).2.farmers = db.farmers ++ [f] ∧
           (register d fId cOk db).2.buyers = db.buyers) ∨
         (∃ bu : Buyer, bu.userId = u.id ∧
           (register d fId cOk db).2.buyers = db.buyers ++ [bu] ∧
           (register d fId cOk db).2.farmers = db.farmers))) := by
  refine ⟨?_, ?_, ?_, ?_⟩
  · intro h1 h4 h3 h5
    simp [register, h1, h4, h3, h5]
  · intro h
    rcases register_cases d fId cOk db with hc | hc
    · exact hc.2
    · exact absurd hc.1 h
  · intro hc0
    rcases register_cases d fId cOk db with hc | hc
    · exact hc
    · rw [hc0] at hc
      exact absurd hc.2.1 (by simp)
  · intro h
    rcases register_cases d fId cOk db with hc | hc
    · exact absurd h hc.1
    · exact hc.2.2

/-- Witness for C2: a farmer registration without a phone number on
`dbAB` answers 400 and leaves the committed state unchanged. -/
theorem c2_witness :
    register regFarmerBad 7 true dbAB =
      (⟨400,
        errBody "Farmers require farm_name, location, and phone_number"⟩,
       dbAB) :=
  (c2_registration_atomic regFarmerBad 7 true dbAB).1 rfl rfl rfl rfl

/-- One POST /wishlist call never grows a user's stored wishlist count by
more than one. -/
lemma wishCount_add_le (subj : String) (data : List (String × Json))
    (uid : UserId) (db : DB) :
    wishCount uid (add_to_wishlist subj data db).2 ≤ wishCount uid db + 1 := by
  cases hp : parseUUID subj with
  | none => simp [add_to_wishlist, hp, Nat.le_succ]
  | some uid2 =>
    by_cases hk : (jlookup data "animal_id").isSome = true
    · cases ha : (jlookup data "animal_id").bind Json.asNat with
      | none => simp [add_to_wishlist, hp, hk, ha, Nat.le_succ]
      | some aid =>
        by_cases hdup : (db.wishlists.find?
            (fun w => w.userId == uid2 && w.animalId == aid)).isSome = true
        · simp [add_to_wishlist, hp, hk, ha, hdup, Nat.le_succ]
        · by_cases hfk : db.animals.any (fun a => a.id == aid) = true
          · have hstep : (add_to_wishlist subj data db).2 =
                { db with
                  wishlists := db.wishlists ++ [⟨db.nextWishlistId, uid2, aid⟩],
                  nextWishlistId := db.nextWishlistId + 1 } := by
              simp [add_to_wishlist, hp, hk, ha, hdup, hfk]
            rw [hstep]
            have hlen : (List.filter (fun w => w.userId == uid)
                [(⟨db.nextWishlistId, uid2, aid⟩ : WishlistEntry)]).length ≤ 1 := by
              simp [List.filter]
              split <;> simp
            simp only [wishCount, List.filter_append, List.length_append]
            omega
          · simp [add_to_wishlist, hp, hk, ha, hdup, hfk, Nat.le_succ]
    · simp [add_to_wishlist, hp, hk, Nat.le_succ]

/-- Re-running POST /wishlist with the same token and body does not
change the state a second time. -/
lemma add_to_wishlist_idem (subj : String) (data : List (String × Json))
    (db : DB) :
    (add_to_wishlist subj data (add_to_wishlist subj data db).2).2 =
      (add_to_wishlist subj data db).2 := by
  cases hp : parseUUID subj with
  | none => simp [add_to_wishlist, hp]
  | some uid =>
    by_cases hk : (jlookup data "animal_id").isSome = true
    · cases ha : (jlookup data "animal_id").bind Json.asNat with
      | none => simp [add_to_wishlist, hp, hk, ha]
      | some aid =>
        by_cases hdup : (db.wishlists.find?
            (fun w => w.userId == uid && w.animalId == aid)).isSome = true
        · simp [add_to_wishlist, hp, hk, ha, hdup]
        · by_cases hfk : db.animals.any (fun a => a.id == aid) = true
          · have hstep : (add_to_wishlist subj data db).2 =
                { db with
                  wishlists := db.wishlists ++ [⟨db.nextWishlistId, uid, aid⟩],
                  nextWishlistId := db.nextWishlistId + 1 } := by
              simp [add_to_wishlist, hp, hk, ha, hdup, hfk]
            rw [hstep]
            have h2 : ((db.wishlists ++
                [(⟨db.nextWishlistId, uid, aid⟩ : WishlistEntry)]).find?
                (fun w => w.userId == uid && w.animalId == aid)).isSome = true := by
              rw [List.find?_isSome]
              exact ⟨⟨db.nextWishlistId, uid, aid⟩, by simp, by simp⟩
            simp [add_to_wishlist, hp, hk, ha, h2]
          · simp [add_to_wishlist, hp, hk, ha, hdup, hfk]
    · simp [add_to_wishlist, hp, hk]

/-- After the first POST /wishlist call, further identical calls leave
the state where the first call put it. -/
lemma addNTimes_succ_eq (subj : String) (data : List (String × Json))
    (db : DB) : ∀ n, addNTimes subj data (n + 1) db =
      (add_to_wishlist subj data db).2 := by
  intro n
  induction n with
  | zero => rfl
  | succ m ih =>
    show (add_to_wishlist subj data (addNTimes subj data (m + 1) db)).2 = _
    rw [ih, add_to_wishlist_idem]

/-- C5: wishlist insertion is idempotent per (user, animal) pair: when
the pair is already stored, POST /wishlist answers 200 (success, not an
error) and stores nothing new; one call grows the user's stored count by
at most one, and any number of repeated identical calls still grows it
by at most one in total. -/
theorem c5_wishlist_idempotent_insert (subj : String) (uid : UserId)
    (aid : Nat) (data : List (String × Json)) (db : DB)
    (hp : parseUUID subj = some uid)
    (ha : jlookup data "animal_id" = some (Json.num aid)) :
    ((db.wishlists.find?
        (fun w => w.userId == uid && w.animalId == aid)).isSome = true →
      add_to_wishlist subj data db =
        (⟨200, msgBody "Item already in wishlist"⟩, db)) ∧
    (wishCount uid (add_to_wishlist subj data db).2 ≤
      wishCount uid db + 1) ∧
    (∀ n, wishCount uid (addNTimes subj data n db) ≤
      wishCount uid db + 1) := by
  refine ⟨?_, wishCount_add_le subj data uid db, ?_⟩
  · intro hdup
    have hk : (jlookup data "animal_id").isSome = true := by simp [ha]
    have ha2 : (jlookup data "animal_id").bind Json.asNat = some aid := by
      simp [ha, Json.asNat_natCast]
    simp [add_to_wishlist, hp, hk, ha2, hdup]
  · intro n
    cases n with
    | zero => exact Nat.le_succ _
    | succ m =>
      rw [addNTimes_succ_eq]
      exact wishCount_add_le subj data uid db

/-- Witness for C5: user 2 re-adding the already-wishlisted animal 5 on
`dbAB`, and the count bound after three identical calls. -/
theorem c5_witness :
    add_to_wishlist subjB wishData dbAB =
      (⟨200, msgBody "Item already in wishlist"⟩, dbAB) ∧
    wishCount 2 (addNTimes subjB wishData 3 dbAB) ≤ wishCount 2 dbAB + 1 := by
  have h := c5_wishlist_idempotent_insert subjB 2 5 wishData dbAB rfl rfl
  exact ⟨h.1 rfl, h.2.2 3⟩

end Farmart
